import Mathlib

/-!
Verification development for the PYDecoder repository.

The definitions below are shallow embeddings of the Python sources:

* pydecoder/utils/band_helpers.py  — the band classifier (pure functions);
* pydecoder/networking/antenna_genius.py — the Antenna Genius TCP client,
  modelled as an explicit state-transition function with the socket-level
  outcomes of each call supplied as parameters;
* pydecoder/devices/ftdi.py — the FTDI filter-bank controller's
  write_bcd / close operations, modelled as state transitions that also
  report the list of hardware write attempts they issue;
* pydecoder/core/decoder_engine.py — the per-tick update_frequency
  orchestration.

Python floats only ever hold values of the form (integer / 100) in this
program, so they are modelled exactly as rationals.
-/

namespace PYDecoder

/-- Embeds band_helpers.get_bcd (band_helpers.py lines 3-35): the BCD
nibble for a frequency in kHz.  The Python comparisons are numeric, so the
function is defined on rationals; the engine passes it ints. -/
def get_bcd (frequency : ℚ) : ℤ :=
  if frequency < 2000 then 1
  else if frequency < 4000 then 2
  else if frequency < 6000 then 0
  else if frequency < 8000 then 3
  else if frequency < 11000 then 4
  else if frequency < 15000 then 5
  else if frequency < 19000 then 6
  else if frequency < 22000 then 7
  else if frequency < 25000 then 8
  else if frequency < 30000 then 9
  else if frequency < 60000 then 10
  else 0

/-- Embeds band_helpers.get_ag_band (band_helpers.py lines 37-69): the
antenna port for a frequency in kHz. -/
def get_ag_band (frequency : ℚ) : ℤ :=
  if frequency < 2000 then 1
  else if frequency < 4000 then 2
  else if frequency < 6000 then 11
  else if frequency < 8000 then 3
  else if frequency < 11000 then 4
  else if frequency < 15000 then 5
  else if frequency < 19000 then 6
  else if frequency < 22000 then 7
  else if frequency < 25000 then 8
  else if frequency < 30000 then 9
  else if frequency < 60000 then 10
  else 1

/-- Embeds band_helpers.get_band_name (band_helpers.py lines 71-103): the
display name for a frequency in kHz. -/
def get_band_name (frequency : ℚ) : String :=
  if frequency < 2000 then "160m"
  else if frequency < 4000 then "80m"
  else if frequency < 6000 then "60m"
  else if frequency < 8000 then "40m"
  else if frequency < 11000 then "30m"
  else if frequency < 15000 then "20m"
  else if frequency < 19000 then "17m"
  else if frequency < 22000 then "15m"
  else if frequency < 25000 then "12m"
  else if frequency < 30000 then "10m"
  else if frequency < 60000 then "6m"
  else "unknown"

set_option maxHeartbeats 2000000 in
/-- C2: the band classifier is total — for every integer frequency each of
the three projections returns a value from its closed table — and each of
the eleven interval boundaries 2000, 4000, 6000, 8000, 11000, 15000,
19000, 22000, 25000, 30000, 60000 kHz belongs to the upper band, for all
three projections: the boundary classifies to the upper band's value and
boundary-1 to the lower band's value (e.g. get_band_name 1999 = "160m"
and get_band_name 2000 = "80m"). -/
theorem classifier_total_and_boundaries :
    (∀ f : ℤ,
      get_band_name (f : ℚ) ∈
        (["160m", "80m", "60m", "40m", "30m", "20m", "17m", "15m", "12m",
          "10m", "6m", "unknown"] : List String) ∧
      get_bcd (f : ℚ) ∈ ([1, 2, 0, 3, 4, 5, 6, 7, 8, 9, 10] : List ℤ) ∧
      get_ag_band (f : ℚ) ∈ ([1, 2, 11, 3, 4, 5, 6, 7, 8, 9, 10] : List ℤ)) ∧
    (get_band_name 1999 = "160m" ∧ get_band_name 2000 = "80m" ∧
     get_band_name 3999 = "80m" ∧ get_band_name 4000 = "60m" ∧
     get_band_name 5999 = "60m" ∧ get_band_name 6000 = "40m" ∧
     get_band_name 7999 = "40m" ∧ get_band_name 8000 = "30m" ∧
     get_band_name 10999 = "30m" ∧ get_band_name 11000 = "20m" ∧
     get_band_name 14999 = "20m" ∧ get_band_name 15000 = "17m" ∧
     get_band_name 18999 = "17m" ∧ get_band_name 19000 = "15m" ∧
     get_band_name 21999 = "15m" ∧ get_band_name 22000 = "12m" ∧
     get_band_name 24999 = "12m" ∧ get_band_name 25000 = "10m" ∧
     get_band_name 29999 = "10m" ∧ get_band_name 30000 = "6m" ∧
     get_band_name 59999 = "6m" ∧ get_band_name 60000 = "unknown") ∧
    (get_bcd 1999 = 1 ∧ get_bcd 2000 = 2 ∧
     get_bcd 3999 = 2 ∧ get_bcd 4000 = 0 ∧
     get_bcd 5999 = 0 ∧ get_bcd 6000 = 3 ∧
     get_bcd 7999 = 3 ∧ get_bcd 8000 = 4 ∧
     get_bcd 10999 = 4 ∧ get_bcd 11000 = 5 ∧
     get_bcd 14999 = 5 ∧ get_bcd 15000 = 6 ∧
     get_bcd 18999 = 6 ∧ get_bcd 19000 = 7 ∧
     get_bcd 21999 = 7 ∧ get_bcd 22000 = 8 ∧
     get_bcd 24999 = 8 ∧ get_bcd 25000 = 9 ∧
     get_bcd 29999 = 9 ∧ get_bcd 30000 = 10 ∧
     get_bcd 59999 = 10 ∧ get_bcd 60000 = 0) ∧
    (get_ag_band 1999 = 1 ∧ get_ag_band 2000 = 2 ∧
     get_ag_band 3999 = 2 ∧ get_ag_band 4000 = 11 ∧
     get_ag_band 5999 = 11 ∧ get_ag_band 6000 = 3 ∧
     get_ag_band 7999 = 3 ∧ get_ag_band 8000 = 4 ∧
     get_ag_band 10999 = 4 ∧ get_ag_band 11000 = 5 ∧
     get_ag_band 14999 = 5 ∧ get_ag_band 15000 = 6 ∧
     get_ag_band 18999 = 6 ∧ get_ag_band 19000 = 7 ∧
     get_ag_band 21999 = 7 ∧ get_ag_band 22000 = 8 ∧
     get_ag_band 24999 = 8 ∧ get_ag_band 25000 = 9 ∧
     get_ag_band 29999 = 9 ∧ get_ag_band 30000 = 10 ∧
     get_ag_band 59999 = 10 ∧ get_ag_band 60000 = 1) := by
  refine ⟨fun f => ⟨?_, ?_, ?_⟩, ?_, ?_, ?_⟩
  · unfold get_band_name
    repeat' split
    all_goals decide
  · unfold get_bcd
    repeat' split
    all_goals decide
  · unfold get_ag_band
    repeat' split
    all_goals decide
  · decide
  · decide
  · decide

/-- C3: every frequency of 60000 kHz or more falls to the unmatched
"else" bucket, where the three projections intentionally disagree:
get_bcd returns 0 (the 60m value), get_ag_band returns 1 (the 160m
value) and get_band_name returns "unknown". -/
theorem else_bucket_projections (f : ℤ) (h : 60000 ≤ f) :
    get_bcd (f : ℚ) = 0 ∧ get_ag_band (f : ℚ) = 1 ∧
    get_band_name (f : ℚ) = "unknown" := by
  have hq : (60000 : ℚ) ≤ (f : ℚ) := by exact_mod_cast h
  refine ⟨?_, ?_, ?_⟩
  · unfold get_bcd
    repeat rw [if_neg (by linarith)]
  · unfold get_ag_band
    repeat rw [if_neg (by linarith)]
  · unfold get_band_name
    repeat rw [if_neg (by linarith)]

/-- Witness for C3: the boundary input 60000 itself maps to nibble 0,
port 1 and name "unknown". -/
theorem else_bucket_projections_witness :
    get_bcd ((60000 : ℤ) : ℚ) = 0 ∧ get_ag_band ((60000 : ℤ) : ℚ) = 1 ∧
    get_band_name ((60000 : ℤ) : ℚ) = "unknown" :=
  else_bucket_projections 60000 (by norm_num)

/-- The socket-level failure classes handled by AntennaGenius.set_antenna
(antenna_genius.py lines 92-126): socket.gaierror, socket.timeout,
ConnectionRefusedError, socket.error, OSError. -/
inductive AGErrClass
  | addressError
  | connTimeout
  | connRefused
  | socketError
  | osError
deriving DecidableEq

/-- The status-callback strings of set_antenna, one per failure class
(antenna_genius.py lines 95, 102, 109, 116, 123). -/
def failMsg : AGErrClass → String
  | .addressError => "AG Comm Failure! Address error"
  | .connTimeout => "AG Comm Failure! Connection timeout"
  | .connRefused => "AG Comm Failure! Connection refused"
  | .socketError => "AG Comm Failure! Socket error"
  | .osError => "AG Comm Failure! OS error"

/-- The mutable fields of an AntennaGenius instance
(antenna_genius.py lines 25-29).  The socket object is modelled by an
identity number, none when self.socket is None. -/
structure AGState where
  command_counter : ℕ
  socket : Option ℕ
  last_connection_time : ℚ
  connection_address : Option (String × ℤ)
deriving DecidableEq

/-- A freshly constructed AntennaGenius client
(AntennaGenius.init, antenna_genius.py lines 17-29). -/
def agInit : AGState :=
  { command_counter := 0, socket := none, last_connection_time := 0,
    connection_address := none }

/-- The arguments of one set_antenna call together with the behaviour of
the environment during that call: the wall-clock time sampled by
time.time(), the identity of a newly created socket object, and whether
socket.connect and socket.sendall raise (and with which exception
class).  connect_result is consulted only when a connection is actually
established. -/
structure CallParams where
  ip : String
  port : ℤ
  radio_nr : String
  antenna_port : ℤ
  now : ℚ
  sock_id : ℕ
  connect_result : Option AGErrClass
  send_result : Option AGErrClass
  has_callback : Bool
deriving DecidableEq

/-- The observable outcome of one set_antenna call: the state left
behind, the returned bool, the strings passed to the status callback,
the command string built for this call, and whether socket.connect was
invoked (a new TCP connection was established). -/
structure AGResult where
  state : AGState
  success : Bool
  messages : List String
  command : String
  opened : Bool
deriving DecidableEq

/-- The reconnect condition of set_antenna (antenna_genius.py lines
59-63): no socket, different target address, or connection older than
30 seconds. -/
def should_reconnect (s : AGState) (ip : String) (port : ℤ) (now : ℚ) : Bool :=
  s.socket.isNone || decide (s.connection_address ≠ some (ip, port)) ||
    decide (30 < now - s.last_connection_time)

/-- The tail of set_antenna from self.socket.sendall on
(antenna_genius.py lines 84-126): on send failure the handler clears the
socket, notifies the callback and returns False; on success it notifies
the callback and returns True. -/
def finish_send (s : AGState) (cmd : String) (opened : Bool)
    (send_result : Option AGErrClass) (has_cb : Bool) : AGResult :=
  match send_result with
  | some e =>
      { state := { s with socket := none }, success := false,
        messages := if has_cb then [failMsg e] else [],
        command := cmd, opened := opened }
  | none =>
      { state := s, success := true,
        messages := if has_cb then ["AG Message Delivered!"] else [],
        command := cmd, opened := opened }

/-- Embeds AntennaGenius.set_antenna (antenna_genius.py lines 31-126):
increment and wrap the command counter, build the command string, close
a stale or mismatched socket, connect if no socket is held (a connect
exception clears the socket, notifies the callback and returns False),
then send the command. -/
def set_antenna (s : AGState) (p : CallParams) : AGResult :=
  let counter := (s.command_counter + 1) % 100
  let command_str := "C" ++ toString counter ++ "|port set " ++ p.radio_nr ++
    " band=" ++ toString p.antenna_port ++ " \n"
  let s1 : AGState := { s with command_counter := counter }
  let s2 : AGState :=
    if should_reconnect s p.ip p.port p.now && s1.socket.isSome then
      { s1 with socket := none }
    else s1
  if s2.socket.isNone then
    match p.connect_result with
    | some e =>
        { state := { s2 with socket := none }, success := false,
          messages := if p.has_callback then [failMsg e] else [],
          command := command_str, opened := true }
    | none =>
        let s3 : AGState :=
          { s2 with
            socket := some p.sock_id
            connection_address := some (p.ip, p.port)
            last_connection_time := p.now }
        finish_send s3 command_str true p.send_result p.has_callback
  else
    finish_send s2 command_str false p.send_result p.has_callback

/-- The state after n set_antenna calls on a freshly constructed client,
where the stream params gives the arguments and environment behaviour of
each call. -/
def ag_run (params : ℕ → CallParams) : ℕ → AGState
  | 0 => agInit
  | n + 1 => (set_antenna (ag_run params n) (params n)).state

/-- The outcome of call number n + 1 in such a trace (calls are numbered
from 1). -/
def ag_call (params : ℕ → CallParams) (n : ℕ) : AGResult :=
  set_antenna (ag_run params n) (params n)

theorem set_antenna_counter (s : AGState) (p : CallParams) :
    (set_antenna s p).state.command_counter = (s.command_counter + 1) % 100 := by
  unfold set_antenna finish_send
  dsimp only
  repeat' split
  all_goals rfl

theorem set_antenna_command (s : AGState) (p : CallParams) :
    (set_antenna s p).command =
      "C" ++ toString ((s.command_counter + 1) % 100) ++ "|port set " ++
        p.radio_nr ++ " band=" ++ toString p.antenna_port ++ " \n" := by
  unfold set_antenna finish_send
  dsimp only
  repeat' split
  all_goals rfl

theorem ag_run_counter (params : ℕ → CallParams) :
    ∀ n, (ag_run params n).command_counter = n % 100
  | 0 => rfl
  | n + 1 => by
      show (set_antenna (ag_run params n) (params n)).state.command_counter = _
      rw [set_antenna_counter, ag_run_counter params n]
      omega

/-- C4: on a freshly constructed client the sequence tag embedded in the
n-th set_antenna call is n mod 100 — the first 100 calls carry tags
1, 2, ..., 99, 0 and the 101st call carries tag 1 again.  Call number
n + 1 builds the command string with counter value (n + 1) mod 100. -/
theorem sequence_tag_wraps (params : ℕ → CallParams) (n : ℕ) :
    (ag_call params n).command =
      "C" ++ toString ((n + 1) % 100) ++ "|port set " ++ (params n).radio_nr ++
        " band=" ++ toString (params n).antenna_port ++ " \n" ∧
    (ag_run params (n + 1)).command_counter = (n + 1) % 100 := by
  constructor
  · unfold ag_call
    rw [set_antenna_command, ag_run_counter params n]
    have h : (n % 100 + 1) % 100 = (n + 1) % 100 := by omega
    rw [h]
  · exact ag_run_counter params (n + 1)

theorem set_antenna_opened (s : AGState) (p : CallParams) :
    (set_antenna s p).opened = should_reconnect s p.ip p.port p.now := by
  cases hsock : s.socket with
  | none =>
      have hr : should_reconnect s p.ip p.port p.now = true := by
        simp [should_reconnect, hsock]
      cases hc : p.connect_result <;>
        cases hs : p.send_result <;>
          simp [set_antenna, finish_send, hsock, hc, hs, hr]
  | some sid =>
      cases hr : should_reconnect s p.ip p.port p.now <;>
        cases hc : p.connect_result <;>
          cases hs : p.send_result <;>
            simp [set_antenna, finish_send, hsock, hc, hs, hr]

theorem set_antenna_fresh_success (s : AGState) (p : CallParams)
    (hsock : s.socket = none) (hc : p.connect_result = none)
    (hs : p.send_result = none) :
    (set_antenna s p).state =
      { command_counter := (s.command_counter + 1) % 100,
        socket := some p.sock_id, last_connection_time := p.now,
        connection_address := some (p.ip, p.port) } := by
  simp [set_antenna, finish_send, hsock, hc, hs]

/-- C6: set_antenna establishes a new TCP connection exactly when no
socket is held, the target (host, port) differs from the held
connection's target, or more than 30 seconds have passed since the held
connection was established; consequently a second call to the same
target within 30 seconds of a successful connection reuses the socket,
while a call to a different target or after more than 30 seconds opens
a new connection. -/
theorem connection_reuse_policy :
    (∀ (s : AGState) (p : CallParams),
      (set_antenna s p).opened = true ↔
        (s.socket = none ∨ s.connection_address ≠ some (p.ip, p.port) ∨
          30 < p.now - s.last_connection_time)) ∧
    (∀ (s : AGState) (p₁ p₂ : CallParams),
      s.socket = none → p₁.connect_result = none → p₁.send_result = none →
      p₂.ip = p₁.ip → p₂.port = p₁.port → p₂.now - p₁.now ≤ 30 →
      (set_antenna s p₁).opened = true ∧
      (set_antenna (set_antenna s p₁).state p₂).opened = false) ∧
    (∀ (s : AGState) (p₁ p₂ : CallParams),
      s.socket = none → p₁.connect_result = none → p₁.send_result = none →
      (¬ (p₂.ip = p₁.ip ∧ p₂.port = p₁.port) ∨ 30 < p₂.now - p₁.now) →
      (set_antenna (set_antenna s p₁).state p₂).opened = true) := by
  refine ⟨fun s p => ?_, fun s p₁ p₂ hsock hc hs hip hport h30 => ⟨?_, ?_⟩,
    fun s p₁ p₂ hsock hc hs hd => ?_⟩
  · rw [set_antenna_opened]
    simp only [should_reconnect, Bool.or_eq_true, decide_eq_true_iff,
      Option.isNone_iff_eq_none, ne_eq]
    tauto
  · rw [set_antenna_opened]
    simp [should_reconnect, hsock]
  · rw [set_antenna_opened, set_antenna_fresh_success s p₁ hsock hc hs]
    simp [should_reconnect, hip, hport]
    linarith
  · rw [set_antenna_opened, set_antenna_fresh_success s p₁ hsock hc hs]
    simp only [should_reconnect, Option.isNone_none, Bool.true_or,
      Option.isNone_some, Bool.false_or, Bool.or_eq_true, decide_eq_true_iff]
    rcases hd with hd | hd
    · left
      simp only [ne_eq, Option.some_inj, Prod.mk.injEq]
      tauto
    · right
      linarith

/-- C7: every socket-level failure class during set_antenna produces a
distinct callback message (when a callback is installed), clears the
held socket so that the next call must reconnect, and returns False;
success reports a success message and returns True; and the presence or
absence of the callback changes neither the returned value nor the
resulting state. -/
theorem failure_reporting :
    (∀ (s : AGState) (p : CallParams) (e : AGErrClass),
      should_reconnect s p.ip p.port p.now = true → p.connect_result = some e →
      (set_antenna s p).success = false ∧ (set_antenna s p).state.socket = none ∧
      (set_antenna s p).messages = (if p.has_callback then [failMsg e] else [])) ∧
    (∀ (s : AGState) (p : CallParams) (e : AGErrClass),
      p.connect_result = none → p.send_result = some e →
      (set_antenna s p).success = false ∧ (set_antenna s p).state.socket = none ∧
      (set_antenna s p).messages = (if p.has_callback then [failMsg e] else [])) ∧
    (∀ (s : AGState) (p : CallParams),
      p.connect_result = none → p.send_result = none →
      (set_antenna s p).success = true ∧
      (set_antenna s p).messages =
        (if p.has_callback then ["AG Message Delivered!"] else [])) ∧
    (∀ e₁ e₂ : AGErrClass, failMsg e₁ = failMsg e₂ → e₁ = e₂) ∧
    (∀ (s : AGState) (p : CallParams),
      (set_antenna s { p with has_callback := true }).success =
        (set_antenna s { p with has_callback := false }).success ∧
      (set_antenna s { p with has_callback := true }).state =
        (set_antenna s { p with has_callback := false }).state) ∧
    (∀ (s : AGState) (ip : String) (port : ℤ) (now : ℚ),
      s.socket = none → should_reconnect s ip port now = true) := by
  refine ⟨fun s p e hr hc => ?_, fun s p e hc hs => ?_, fun s p hc hs => ?_,
    ?_, fun s p => ?_, fun s ip port now hsock => ?_⟩
  · cases hsock : s.socket <;>
      simp [set_antenna, finish_send, hsock, hc, hr]
  · cases hsock : s.socket <;>
      cases hr : should_reconnect s p.ip p.port p.now <;>
        simp [set_antenna, finish_send, hsock, hc, hs, hr]
  · cases hsock : s.socket <;>
      cases hr : should_reconnect s p.ip p.port p.now <;>
        simp [set_antenna, finish_send, hsock, hc, hs, hr]
  · intro e₁ e₂ h
    cases e₁ <;> cases e₂ <;> first | rfl | exact absurd h (by decide)
  · cases hsock : s.socket <;>
      cases hr : should_reconnect s p.ip p.port p.now <;>
        cases hc : p.connect_result <;>
          cases hs : p.send_result <;>
            simp [set_antenna, finish_send, hsock, hc, hs, hr]
  · simp [should_reconnect, hsock]

/-- A concrete successful first call used to instantiate the reuse and
failure theorems. -/
def agCall1 : CallParams :=
  { ip := "192.168.1.100", port := 9007, radio_nr := "1", antenna_port := 5,
    now := 0, sock_id := 1, connect_result := none, send_result := none,
    has_callback := true }

/-- Witness for C6: from a fresh client, a successful call to
192.168.1.100:9007 at time 0 opens a connection; a second call to the
same target at time 10 does not open another; a call at time 31
does. -/
theorem connection_reuse_policy_witness :
    (set_antenna agInit agCall1).opened = true ∧
    (set_antenna (set_antenna agInit agCall1).state
      { agCall1 with now := 10, sock_id := 2 }).opened = false ∧
    (set_antenna (set_antenna agInit agCall1).state
      { agCall1 with now := 31, sock_id := 3 }).opened = true :=
  ⟨(connection_reuse_policy.2.1 agInit agCall1
      { agCall1 with now := 10, sock_id := 2 } rfl rfl rfl rfl rfl
      (by norm_num [agCall1])).1,
   (connection_reuse_policy.2.1 agInit agCall1
      { agCall1 with now := 10, sock_id := 2 } rfl rfl rfl rfl rfl
      (by norm_num [agCall1])).2,
   connection_reuse_policy.2.2 agInit agCall1
      { agCall1 with now := 31, sock_id := 3 } rfl rfl rfl
      (Or.inr (by norm_num [agCall1]))⟩

/-- Witness for C7: a connect timeout on a fresh client returns False,
clears the socket and reports the timeout message; a successful send
returns True with the success message; the timeout and address-error
strings are distinguishable; and a cleared socket forces the next call
to reconnect. -/
theorem failure_reporting_witness :
    ((set_antenna agInit { agCall1 with
        connect_result := some AGErrClass.connTimeout }).success = false ∧
      (set_antenna agInit { agCall1 with
        connect_result := some AGErrClass.connTimeout }).state.socket = none ∧
      (set_antenna agInit { agCall1 with
        connect_result := some AGErrClass.connTimeout }).messages =
        (if ({ agCall1 with
            connect_result := some AGErrClass.connTimeout } : CallParams).has_callback
          then [failMsg AGErrClass.connTimeout] else [])) ∧
    ((set_antenna agInit { agCall1 with
        send_result := some AGErrClass.socketError }).success = false ∧
      (set_antenna agInit { agCall1 with
        send_result := some AGErrClass.socketError }).state.socket = none ∧
      (set_antenna agInit { agCall1 with
        send_result := some AGErrClass.socketError }).messages =
        (if ({ agCall1 with
            send_result := some AGErrClass.socketError } : CallParams).has_callback
          then [failMsg AGErrClass.socketError] else [])) ∧
    ((set_antenna agInit agCall1).success = true ∧
      (set_antenna agInit agCall1).messages =
        (if agCall1.has_callback then ["AG Message Delivered!"] else [])) ∧
    AGErrClass.osError = AGErrClass.osError ∧
    should_reconnect agInit "192.168.1.100" 9007 50 = true :=
  ⟨failure_reporting.1 agInit
      { agCall1 with connect_result := some AGErrClass.connTimeout }
      AGErrClass.connTimeout (by decide) rfl,
   failure_reporting.2.1 agInit
      { agCall1 with send_result := some AGErrClass.socketError }
      AGErrClass.socketError rfl rfl,
   failure_reporting.2.2.1 agInit agCall1 rfl rfl,
   failure_reporting.2.2.2.1 AGErrClass.osError AGErrClass.osError rfl,
   failure_reporting.2.2.2.2.2 agInit "192.168.1.100" 9007 50 rfl⟩

/-- The outcome of one hardware write to one FTDI actuator, the
exception classes distinguished by write_bcd (ftdi.py lines 692-753):
success, pyftdi.ftdi.FtdiError (with or without "Operation not
supported" in its text), OSError, or any other exception. -/
inductive WriteOutcome
  | ok
  | ftdiErr (op_not_supported : Bool)
  | osErr
  | otherErr
deriving DecidableEq

/-- The fields of FTDIDeviceManager that write_bcd and close read or
mutate (ftdi.py lines 62-79): the simulation flag, the direct-ftd2xx
flag, the configured_devices list, and whether each of
gpio_device0..2 and the direct handle ft232h_device0 is non-None. -/
structure FtdiState where
  simulation_mode : Bool
  direct_mode : Bool
  configured_devices : List ℕ
  gpio_device0 : Bool
  gpio_device1 : Bool
  gpio_device2 : Bool
  ft232h_device0 : Bool
deriving DecidableEq

/-- Clamping of the BCD value into [0, 255]
(ftdi.py lines 591-593). -/
def clamp_bcd (v : ℤ) : ℤ := max 0 (min v 255)

/-- One hardware access to one actuator slot: a GPIO write of a byte
value, or a handle close. -/
inductive HWAccess
  | write (slot : ℕ) (value : ℤ)
  | closeDev (slot : ℕ)
deriving DecidableEq

/-- The per-device body of the ftd2xx-backend write loop of write_bcd
(ftdi.py lines 663-673): write each device in turn; on the first
exception switch to simulation mode and break out of the loop.  Returns
the write accesses issued and whether a failure occurred. -/
def ftd2xx_write_loop (beh : ℕ → WriteOutcome) (w : ℤ) :
    List ℕ → List HWAccess × Bool
  | [] => ([], false)
  | d :: rest =>
    match beh d with
    | .ok =>
        let r := ftd2xx_write_loop beh w rest
        (HWAccess.write d w :: r.1, r.2)
    | _ => ([HWAccess.write d w], true)

/-- The device-0 block of the standard (non-ftd2xx) branch of write_bcd
(ftdi.py lines 692-713): FtdiError leaves the device configured unless
its text contains "Operation not supported" under the ftd2xx backend,
which switches to simulation mode and returns early; OSError and other
exceptions remove device 0.  Returns the new configured list, the
writes issued, and whether the early simulation return was taken. -/
def std_write_device0 (backend : Bool) (beh : ℕ → WriteOutcome) (w : ℤ)
    (cfg : List ℕ) (present : Bool) : List ℕ × List HWAccess × Bool :=
  if 0 ∈ cfg ∧ present then
    match beh 0 with
    | .ok => (cfg, [HWAccess.write 0 w], false)
    | .ftdiErr opns =>
        if opns && backend then (cfg, [HWAccess.write 0 w], true)
        else (cfg, [HWAccess.write 0 w], false)
    | .osErr => (cfg.erase 0, [HWAccess.write 0 w], false)
    | .otherErr => (cfg.erase 0, [HWAccess.write 0 w], false)
  else (cfg, [], false)

/-- The device-1 and device-2 blocks of the standard branch of
write_bcd (ftdi.py lines 715-753): any exception removes the device
from the configured list. -/
def std_write_device (beh : ℕ → WriteOutcome) (w : ℤ) (d : ℕ)
    (present : Bool) (cfg : List ℕ) : List ℕ × List HWAccess :=
  if d ∈ cfg ∧ present then
    match beh d with
    | .ok => (cfg, [HWAccess.write d w])
    | _ => (cfg.erase d, [HWAccess.write d w])
  else (cfg, [])

/-- Embeds FTDIDeviceManager.write_bcd (ftdi.py lines 584-759).  The
argument backend is the value of the check
os.environ.get("PYFTDI_BACKEND") == "ftd2xx" (line 643; the module-load
code at ftdi.py lines 24-39 always sets that variable to "ftd2xx"),
and beh gives the outcome of a hardware write to each device slot.
Returns the new state and the list of device slots to which a hardware
write was issued. -/
def write_bcd (backend : Bool) (beh : ℕ → WriteOutcome) (s : FtdiState)
    (v : ℤ) : FtdiState × List HWAccess :=
  let w := clamp_bcd v
  if s.simulation_mode then (s, [])
  else if s.direct_mode then
    if 0 ∈ s.configured_devices ∧ s.ft232h_device0 then
      match beh 0 with
      | .ok => (s, [HWAccess.write 0 w])
      | _ =>
          let cfg := s.configured_devices.erase 0
          ({ s with
              configured_devices := cfg
              simulation_mode := if cfg.isEmpty then true else s.simulation_mode },
            [HWAccess.write 0 w])
    else (s, [])
  else if backend then
    let devices :=
      (if 0 ∈ s.configured_devices ∧ s.gpio_device0 then [0] else []) ++
      (if 1 ∈ s.configured_devices ∧ s.gpio_device1 then [1] else []) ++
      (if 2 ∈ s.configured_devices ∧ s.gpio_device2 then [2] else [])
    if devices.isEmpty then ({ s with simulation_mode := true }, [])
    else
      let r := ftd2xx_write_loop beh w devices
      (if r.2 then { s with simulation_mode := true } else s, r.1)
  else
    if s.configured_devices.isEmpty then
      ({ s with simulation_mode := true }, [])
    else
      let r0 := std_write_device0 backend beh w s.configured_devices s.gpio_device0
      if r0.2.2 then ({ s with simulation_mode := true }, r0.2.1)
      else
        let r1 := std_write_device beh w 1 s.gpio_device1 r0.1
        let r2 := std_write_device beh w 2 s.gpio_device2 r1.1
        ({ s with
            configured_devices := r2.1
            simulation_mode := if r2.1.isEmpty then true else s.simulation_mode },
          r0.2.1 ++ r1.2 ++ r2.2)

/-- Embeds FTDIDeviceManager.close (ftdi.py lines 761-839): in
simulation mode only a log line is emitted; in direct mode the direct
handle is closed and cleared; otherwise every non-None gpio controller
is closed (the handles are not cleared, and simulation_mode is never
written).  Returns the state and the device slots whose hardware handle
was accessed. -/
def close_ftdi (s : FtdiState) : FtdiState × List HWAccess :=
  if s.simulation_mode then (s, [])
  else if s.direct_mode then
    ({ s with ft232h_device0 := false },
      if s.ft232h_device0 then [HWAccess.closeDev 0] else [])
  else
    (s,
      (if s.gpio_device0 then [HWAccess.closeDev 0] else []) ++
      (if s.gpio_device1 then [HWAccess.closeDev 1] else []) ++
      (if s.gpio_device2 then [HWAccess.closeDev 2] else []))

/-- The operations a caller can invoke on a controller instance after
construction. -/
inductive FtdiOp
  | write (beh : ℕ → WriteOutcome) (v : ℤ)
  | close

/-- One operation step: dispatch to write_bcd or close. -/
def ftdi_step (backend : Bool) (s : FtdiState) : FtdiOp → FtdiState × List HWAccess
  | .write beh v => write_bcd backend beh s v
  | .close => close_ftdi s

/-- A sequence of operations on one controller instance, accumulating
every hardware access issued along the way. -/
def ftdi_run (backend : Bool) (s : FtdiState) : List FtdiOp → FtdiState × List HWAccess
  | [] => (s, [])
  | op :: ops =>
    let r := ftdi_step backend s op
    let rest := ftdi_run backend r.1 ops
    (rest.1, r.2 ++ rest.2)

/-- C8: simulation mode is terminal — once a controller instance is in
simulation mode, any sequence of writeBCD and close operations issues
no hardware access at all and leaves the state (in particular the
simulation flag) unchanged, so the instance never returns to hardware
mode. -/
theorem simulation_mode_terminal (backend : Bool) (s : FtdiState)
    (h : s.simulation_mode = true) (ops : List FtdiOp) :
    ftdi_run backend s ops = (s, []) := by
  induction ops with
  | nil => rfl
  | cons op ops ih =>
      have hstep : ftdi_step backend s op = (s, []) := by
        cases op <;> simp [ftdi_step, write_bcd, close_ftdi, h]
      simp [ftdi_run, hstep, ih]

/-- A controller instance that is already in simulation mode with no
configured devices, as produced when every actuator has failed. -/
def ftdiSim : FtdiState :=
  { simulation_mode := true, direct_mode := false,
    configured_devices := [], gpio_device0 := false,
    gpio_device1 := false, gpio_device2 := false,
    ft232h_device0 := false }

/-- Witness for C8: a simulated controller stays simulated and silent
across a write of 5 and a close. -/
theorem simulation_mode_terminal_witness :
    ftdi_run true ftdiSim
      [FtdiOp.write (fun _ => WriteOutcome.ok) 5, FtdiOp.close] =
      (ftdiSim, []) :=
  simulation_mode_terminal true ftdiSim rfl
    [FtdiOp.write (fun _ => WriteOutcome.ok) 5, FtdiOp.close]

/-- A controller with all three actuators configured and healthy
handles, in the standard hardware mode. -/
def ftdi3 : FtdiState :=
  { simulation_mode := false, direct_mode := false,
    configured_devices := [0, 1, 2], gpio_device0 := true,
    gpio_device1 := true, gpio_device2 := true, ft232h_device0 := false }

/-- Write behaviour in which actuator 1 always fails with FtdiError and
the others succeed. -/
def beh_fail1 : ℕ → WriteOutcome :=
  fun i => if i = 1 then WriteOutcome.ftdiErr false else WriteOutcome.ok

/-- Write behaviour in which actuator 0 always fails with FtdiError and
the others succeed. -/
def beh_fail0 : ℕ → WriteOutcome :=
  fun i => if i = 0 then WriteOutcome.ftdiErr false else WriteOutcome.ok

/-- C1 (evaluation at the claim's failing input): under the ftd2xx
backend — which the module import always selects — a write_bcd call on
a controller with actuators 0, 1, 2 configured, where actuator 1 fails,
issues writes only to 0 and 1 (actuator 2 is skipped), removes nothing
from the configured set, flips the whole controller to simulation mode,
and the next call issues no hardware access at all; and even in the
dead non-ftd2xx branch an FtdiError on actuator 0 does not remove
actuator 0 from the configured set. -/
theorem write_bcd_failure_not_isolated :
    (write_bcd true beh_fail1 ftdi3 5).2 =
      [HWAccess.write 0 5, HWAccess.write 1 5] ∧
    (write_bcd true beh_fail1 ftdi3 5).1.simulation_mode = true ∧
    (write_bcd true beh_fail1 ftdi3 5).1.configured_devices = [0, 1, 2] ∧
    (write_bcd true beh_fail1 (write_bcd true beh_fail1 ftdi3 5).1 5).2 = [] ∧
    (write_bcd false beh_fail0 ftdi3 5).2 =
      [HWAccess.write 0 5, HWAccess.write 1 5, HWAccess.write 2 5] ∧
    (write_bcd false beh_fail0 ftdi3 5).1.configured_devices = [0, 1, 2] := by
  decide

/-- Splits a character list at the first occurrence of sep, returning
the part before it and the part after it, or none when sep does not
occur. -/
def find_split (sep : List Char) : List Char → Option (List Char × List Char)
  | [] => if sep.isEmpty then some ([], []) else none
  | c :: cs =>
    if sep.isPrefixOf (c :: cs) then some ([], (c :: cs).drop sep.length)
    else
      match find_split sep cs with
      | some (pre, post) => some (c :: pre, post)
      | none => none

/-- The text content of the first occurrence of the XML element tag in
xml, or none when the element is absent. -/
def extract_tag (xml tag : String) : Option String :=
  match find_split ("<" ++ tag ++ ">").toList xml.toList with
  | none => none
  | some (_, rest) =>
    match find_split ("</" ++ tag ++ ">").toList rest with
    | none => none
    | some (content, _) => some (String.mk content)

/-- The two fields the engine reads from a parsed telemetry dict:
radio_dict.get("RadioInfo", \x7b\x7d).get("RadioNr") and
radio_dict["RadioInfo"]["Freq"], each none when the key is absent. -/
structure RadioInfoData where
  radio_nr : Option String
  freq : Option String
deriving DecidableEq

/-- Models the observable behaviour of xmltodict.parse (n1mm.py line
64) followed by the dict accesses of decoder_engine.py lines 107-110,
for flat RadioInfo documents: none when no RadioInfo root element is
present (covering parse failures and foreign roots, both of which make
the engine skip the sample), otherwise the RadioNr and Freq child
texts. -/
def parse_radio_dict (xml : String) : Option RadioInfoData :=
  match extract_tag xml "RadioInfo" with
  | none => none
  | some body =>
      some { radio_nr := extract_tag body "RadioNr",
             freq := extract_tag body "Freq" }

/-- Digit-list accumulator of the decimal value of a character list;
none on the first non-digit character. -/
def py_digits_aux (acc : ℕ) : List Char → Option ℕ
  | [] => some acc
  | c :: cs =>
    if 48 ≤ c.toNat ∧ c.toNat ≤ 57 then
      py_digits_aux (10 * acc + (c.toNat - 48)) cs
    else none

/-- Models the Python built-in int() applied to an optionally signed
decimal string, as used for int(freq_string) and int(port) in
decoder_engine.py lines 94, 111 and 118: none models the ValueError
branches.  (Surrounding whitespace and underscore separators, which
Python also accepts, do not occur in this program's inputs.) -/
def py_int_of_string (s : String) : Option ℤ :=
  match s.toList with
  | [] => none
  | c :: cs =>
    if c.toNat = 45 then
      match cs with
      | [] => none
      | _ => (py_digits_aux 0 cs).map (fun n => -(n : ℤ))
    else if c.toNat = 43 then
      match cs with
      | [] => none
      | _ => (py_digits_aux 0 cs).map (fun n => (n : ℤ))
    else (py_digits_aux 0 (c :: cs)).map (fun n => (n : ℤ))

/-- Models the Python built-in int() applied to a float (truncation
toward zero), as used in int(self.radio_freq) at decoder_engine.py
lines 124 and 129. -/
def py_int_of_rat (q : ℚ) : ℤ :=
  if q < 0 then -(Rat.floor (-q)) else Rat.floor q

/-- The settings the engine reads during update_frequency
(decoder_engine.py lines 92-123; key constants in config.py), all
string-valued as stored in the settings dict. -/
structure Settings where
  logger_ip : String
  logger_udp : String
  ag_ip : String
  ag_tcp_port : String
  ag_rf_port : String
deriving DecidableEq

/-- The engine state fields mutated by the engine itself
(decoder_engine.py lines 45-46): the monitoring flag and the recorded
last frequency. -/
structure EngineState where
  is_active : Bool
  radio_freq : ℚ
deriving DecidableEq

/-- A freshly constructed DecoderEngine (DecoderEngine.init,
decoder_engine.py lines 44-46): inactive with recorded frequency 0. -/
def engine_init : EngineState := { is_active := false, radio_freq := 0 }

/-- Embeds DecoderEngine.get_current_band (decoder_engine.py lines
161-167): the band name of the recorded frequency. -/
def get_current_band (s : EngineState) : String := get_band_name s.radio_freq

/-- Embeds DecoderEngine.get_current_frequency (decoder_engine.py lines
169-175). -/
def get_current_frequency (s : EngineState) : ℚ := s.radio_freq

/-- The environment of the AntennaGenius call made inside one tick: the
wall-clock time, the identity of a fresh socket, the socket-level
outcomes, and whether a status callback was installed at engine
construction. -/
structure AGNetEnv where
  now : ℚ
  sock_id : ℕ
  connect_result : Option AGErrClass
  send_result : Option AGErrClass
  has_callback : Bool
deriving DecidableEq

/-- The observable outcome of one engine tick: the engine and antenna
client states left behind, the command string handed to the Antenna
Switch Client (none when no dispatch happened), the BCD value handed to
the Filter Bank Controller (none when no dispatch happened), and the
returned frequency. -/
structure TickResult where
  eng : EngineState
  ag : AGState
  ag_command : Option String
  bcd_write : Option ℤ
  ret : Option ℚ
deriving DecidableEq

/-- Embeds DecoderEngine.update_frequency (decoder_engine.py lines
76-146).  sock_present says whether the N1MM listener already holds a
socket and bind_ok whether a fresh setup_socket call would succeed;
datagram is the payload received by receive_data (none for a timeout or
receive error).  Inactive ticks, bind failures, missing or foreign
RadioNr, missing Freq (KeyError) and unparsable Freq (ValueError) all
return none without dispatching; otherwise the frequency is recorded,
the antenna command is dispatched with the classified port, the BCD
nibble is dispatched, and the frequency is returned. -/
def update_frequency (st : Settings) (sock_present bind_ok : Bool)
    (datagram : Option String) (env : AGNetEnv) (eng : EngineState)
    (ag : AGState) : TickResult :=
  if eng.is_active = false then ⟨eng, ag, none, none, none⟩
  else if sock_present = false ∧ bind_ok = false then ⟨eng, ag, none, none, none⟩
  else
    match datagram.bind parse_radio_dict with
    | none => ⟨eng, ag, none, none, none⟩
    | some d =>
      if d.radio_nr = some "1" then
        match d.freq with
        | none => ⟨eng, ag, none, none, none⟩
        | some freq_string =>
          match py_int_of_string freq_string with
          | none => ⟨eng, ag, none, none, none⟩
          | some n =>
            let freq : ℚ := (n : ℚ) / 100
            let ag_tcp_port : ℤ := (py_int_of_string st.ag_tcp_port).getD 9007
            let antenna_port : ℤ := get_ag_band ((py_int_of_rat freq : ℤ) : ℚ)
            let call : CallParams :=
              { ip := st.ag_ip, port := ag_tcp_port,
                radio_nr := st.ag_rf_port, antenna_port := antenna_port,
                now := env.now, sock_id := env.sock_id,
                connect_result := env.connect_result,
                send_result := env.send_result,
                has_callback := env.has_callback }
            let r := set_antenna ag call
            let bcd : ℤ := get_bcd ((py_int_of_rat freq : ℤ) : ℚ)
            ⟨{ eng with radio_freq := freq }, r.state, some r.command,
              some bcd, some freq⟩
      else ⟨eng, ag, none, none, none⟩

/-- The telemetry datagram of the end-to-end scenario. -/
def telemetry_datagram : String :=
  "<RadioInfo><RadioNr>1</RadioNr><Freq>1415000</Freq></RadioInfo>"

theorem tick_1415000_parts (st : Settings) (env : AGNetEnv) (q : ℚ)
    (ag : AGState) :
    (update_frequency st true true (some telemetry_datagram) env
      ⟨true, q⟩ ag).eng.radio_freq = 14150 ∧
    (update_frequency st true true (some telemetry_datagram) env
      ⟨true, q⟩ ag).ret = some 14150 ∧
    (update_frequency st true true (some telemetry_datagram) env
      ⟨true, q⟩ ag).bcd_write = some 5 ∧
    (update_frequency st true true (some telemetry_datagram) env
      ⟨true, q⟩ ag).ag_command =
      some ("C" ++ toString ((ag.command_counter + 1) % 100) ++
        "|port set " ++ st.ag_rf_port ++ " band=" ++ toString (5 : ℤ) ++
        " \n") := by
  have hparse : parse_radio_dict telemetry_datagram =
      some { radio_nr := some "1", freq := some "1415000" } := by decide
  have hint : py_int_of_string "1415000" = some 1415000 := by decide
  have hdiv : (1415000 : ℚ) / 100 = 14150 := by norm_num
  have htr : py_int_of_rat (14150 : ℚ) = 14150 := by decide
  have hag : get_ag_band (14150 : ℚ) = 5 := by decide
  have hb : get_bcd (14150 : ℚ) = 5 := by decide
  unfold update_frequency
  simp [hparse, hint, hdiv, htr, hag, hb, set_antenna_command]

/-- C5: an active engine tick that receives the telemetry datagram
RadioInfo, RadioNr 1, Freq 1415000 computes the frequency 14150 kHz
(the Freq integer divided by 100), records it as the last frequency,
dispatches the switch command string with band 5 to the Antenna Switch
Client, dispatches a filter-bank write of 5, and returns 14150; with
radio number "1" and a fresh client the exact command string is
"C1|port set 1 band=5 \n". -/
theorem end_to_end_dispatch :
    (∀ (st : Settings) (env : AGNetEnv) (q : ℚ) (ag : AGState),
      (update_frequency st true true (some telemetry_datagram) env
        ⟨true, q⟩ ag).eng.radio_freq = 14150 ∧
      (update_frequency st true true (some telemetry_datagram) env
        ⟨true, q⟩ ag).ret = some 14150 ∧
      (update_frequency st true true (some telemetry_datagram) env
        ⟨true, q⟩ ag).bcd_write = some 5 ∧
      (update_frequency st true true (some telemetry_datagram) env
        ⟨true, q⟩ ag).ag_command =
        some ("C" ++ toString ((ag.command_counter + 1) % 100) ++
          "|port set " ++ st.ag_rf_port ++ " band=" ++ toString (5 : ℤ) ++
          " \n")) ∧
    (update_frequency
        { logger_ip := "127.0.0.1", logger_udp := "12060",
          ag_ip := "192.168.1.100", ag_tcp_port := "9007", ag_rf_port := "1" }
        true true (some telemetry_datagram)
        { now := 0, sock_id := 7, connect_result := none,
          send_result := none, has_callback := true }
        ⟨true, 0⟩ agInit).ag_command =
      some "C1|port set 1 band=5 \n" := by
  refine ⟨fun st env q ag => tick_1415000_parts st env q ag, ?_⟩
  have h := (tick_1415000_parts
    { logger_ip := "127.0.0.1", logger_udp := "12060",
      ag_ip := "192.168.1.100", ag_tcp_port := "9007", ag_rf_port := "1" }
    { now := 0, sock_id := 7, connect_result := none,
      send_result := none, has_callback := true }
    0 agInit).2.2.2
  rw [h]
  decide

/-- The RadioNr of the datagram an engine tick received, through the
same parse the engine performs; none when nothing was received or no
RadioInfo element is present. -/
def datagram_radio_nr (datagram : Option String) : Option String :=
  match datagram.bind parse_radio_dict with
  | none => none
  | some d => d.radio_nr

/-- C9: whenever the engine is inactive, or the received sample's radio
index is not "1", the tick dispatches to neither sink, leaves the
recorded frequency (and the whole engine and antenna client state)
unchanged, and returns none. -/
theorem inactive_or_foreign_radio_no_dispatch
    (st : Settings) (sock_present bind_ok : Bool) (datagram : Option String)
    (env : AGNetEnv) (eng : EngineState) (ag : AGState)
    (h : eng.is_active = false ∨ datagram_radio_nr datagram ≠ some "1") :
    update_frequency st sock_present bind_ok datagram env eng ag =
      ⟨eng, ag, none, none, none⟩ := by
  unfold update_frequency
  rcases h with h | h
  · simp [h]
  · cases hact : eng.is_active with
    | false => simp
    | true =>
        simp only [hact, Bool.true_eq_false, if_false]
        cases hd : datagram.bind parse_radio_dict with
        | none => simp [hd]
        | some d =>
            have hne : ¬ d.radio_nr = some "1" := by
              unfold datagram_radio_nr at h
              rw [hd] at h
              exact h
            simp [hd, hne]

/-- Witness for C9: an active tick receiving a RadioNr 2 datagram
changes nothing and returns none. -/
theorem inactive_or_foreign_radio_no_dispatch_witness :
    update_frequency
      { logger_ip := "127.0.0.1", logger_udp := "12060",
        ag_ip := "192.168.1.100", ag_tcp_port := "9007", ag_rf_port := "1" }
      true true
      (some "<RadioInfo><RadioNr>2</RadioNr><Freq>1415000</Freq></RadioInfo>")
      { now := 0, sock_id := 7, connect_result := none,
        send_result := none, has_callback := true }
      ⟨true, 3⟩ agInit =
      ⟨⟨true, 3⟩, agInit, none, none, none⟩ :=
  inactive_or_foreign_radio_no_dispatch _ true true _ _ ⟨true, 3⟩ agInit
    (Or.inr (by decide))

/-- C10: a freshly constructed engine records frequency 0, so
get_current_frequency returns 0 and get_current_band returns "160m"
(0 lies in the lowest classifier interval), not "unknown". -/
theorem initial_engine_band :
    engine_init.radio_freq = 0 ∧
    get_current_frequency engine_init = 0 ∧
    get_current_band engine_init = "160m" ∧
    get_current_band engine_init ≠ "unknown" := by
  decide

end PYDecoder
